import Mathlib

/-!
Verification of `run_usage` in `ingestion/src/metadata/cli/usage.py`.

The orchestrator is embedded shallowly: the outcomes of the external
collaborators (config loader, workflow factory, workflow instance) are
supplied by an `Env` oracle, and `run_usage` returns the list of external
calls it performs together with its control-flow outcome.
-/

namespace UsageCli

/-- Error taxonomy of the spec (section 7): exceptions that the external
collaborators may raise.  The orchestrator catches `Exception` generically,
so only the carried data matters for the embedding. -/
inductive Exc where
  | configError (msg : String)
  | validationError (msg : String)
  | constructionError (msg : String)
  | workflowFailed (msg : String)
  | unexpectedError (msg : String)
deriving DecidableEq, Repr

/-- `PipelineType` from the generated ingestion-pipeline schema; `run_usage`
always passes `PipelineType.usage` to the init-error handler. -/
inductive PipelineType where
  | metadata
  | usage
  | lineage
  | profiler
  | testSuite
deriving DecidableEq, Repr

/-- The parsed configuration document is opaque to the orchestrator;
it is only loaded and handed to the factory. -/
abbrev ConfigDict := Nat

/-- The constructed workflow instance is opaque to the orchestrator. -/
abbrev Workflow := Nat

/-- Terminal status recorded by the workflow instance after `execute()`. -/
inductive WStatus where
  | success
  | failure
deriving DecidableEq, Repr

/-- Observable external calls made by `run_usage`, in program order. -/
inductive Event where
  | loadConfig
  | create (cfg : ConfigDict)
  | debugTraceback
  | debugUsingConfig
  | printInitError (exc : Exc) (cfg : Option ConfigDict) (k : PipelineType)
  | execute (w : Workflow)
  | stop (w : Workflow)
  | printStatus (w : Workflow)
  | raiseFromStatus (w : Workflow)
deriving DecidableEq, Repr

/-- How control leaves `run_usage`: a normal return, a `sys.exit(code)`,
or an uncaught exception propagating to the caller. -/
inductive Outcome where
  | returned
  | exited (code : Nat)
  | raised (exc : Exc)
deriving DecidableEq, Repr

/-- Oracle for the external collaborators: the result of
`load_config_file(config_path)`, of `UsageWorkflow.create(config_dict)`,
whether `execute()` raises, and the terminal status it records. -/
structure Env where
  loadResult : Except Exc ConfigDict
  createResult : ConfigDict → Except Exc Workflow
  executeExc : Workflow → Option Exc
  statusOf : Workflow → WStatus

/-- Modelled from the spec: `raiseFromStatus() -> void` fails with a
`WorkflowFailed` kind if and only if the recorded Status is not Success.
The implementation of `Workflow.raise_from_status` is outside `src/`. -/
def raise_from_status (st : WStatus) : Except Exc Unit :=
  match st with
  | .success => .ok ()
  | .failure => .error (.workflowFailed "workflow execution failed")

/-- Shallow embedding of `run_usage` (`ingestion/src/metadata/cli/usage.py`,
lines 30-50).  The `try` block covers `load_config_file`,
`UsageWorkflow.create` and the `Using config` debug log; its handler logs
the traceback, calls `WorkflowInitErrorHandler.print_init_error(exc,
config_dict, PipelineType.usage)` and does `sys.exit(1)`.  After the `try`,
`execute`, `stop`, `print_status` and `raise_from_status` run unguarded. -/
def run_usage (env : Env) : List Event × Outcome :=
  match env.loadResult with
  | .error exc =>
      ([.loadConfig, .debugTraceback, .printInitError exc none .usage],
       .exited 1)
  | .ok config_dict =>
    match env.createResult config_dict with
    | .error exc =>
        ([.loadConfig, .create config_dict, .debugTraceback,
          .printInitError exc (some config_dict) .usage],
         .exited 1)
    | .ok workflow =>
      match env.executeExc workflow with
      | some exc =>
          ([.loadConfig, .create config_dict, .debugUsingConfig,
            .execute workflow],
           .raised exc)
      | none =>
        match raise_from_status (env.statusOf workflow) with
        | .error exc =>
            ([.loadConfig, .create config_dict, .debugUsingConfig,
              .execute workflow, .stop workflow, .printStatus workflow,
              .raiseFromStatus workflow],
             .raised exc)
        | .ok _ =>
            ([.loadConfig, .create config_dict, .debugUsingConfig,
              .execute workflow, .stop workflow, .printStatus workflow,
              .raiseFromStatus workflow],
             .returned)

/-- Modelled from the spec: the process boundary maps a normal return to
exit code 0, `sys.exit(n)` to exit code `n`, and a propagated exception to
a nonzero exit (the top-level CLI handler is outside `src/`). -/
def processExitCode : Outcome → Nat
  | .returned => 0
  | .exited n => n
  | .raised _ => 1

/-- The initialization phase (load + construct) fails for this oracle. -/
def initPhaseFails (env : Env) : Bool :=
  match env.loadResult with
  | .error _ => true
  | .ok c =>
    match env.createResult c with
    | .error _ => true
    | .ok _ => false

/-- Recognizes a call to the initialization-error reporter. -/
def isInitReportEvent : Event → Bool
  | .printInitError _ _ _ => true
  | _ => false

/-- The six lifecycle steps of the orchestrator, for ordering statements. -/
inductive Step where
  | loadStep
  | createStep
  | executeStep
  | stopStep
  | printStatusStep
  | raiseStep
deriving DecidableEq, Repr

/-- Projects an event to the lifecycle step it performs, if any. -/
def stepOf : Event → Option Step
  | .loadConfig => some .loadStep
  | .create _ => some .createStep
  | .execute _ => some .executeStep
  | .stop _ => some .stopStep
  | .printStatus _ => some .printStatusStep
  | .raiseFromStatus _ => some .raiseStep
  | _ => none

/-- The canonical order of the six lifecycle steps. -/
def canonicalSteps : List Step :=
  [.loadStep, .createStep, .executeStep, .stopStep, .printStatusStep,
   .raiseStep]

/-- Concrete oracle: config loading itself fails. -/
def envLoadFail : Env where
  loadResult := .error (.configError "unparseable")
  createResult := fun _ => .ok 0
  executeExc := fun _ => none
  statusOf := fun _ => .success

/-- Concrete oracle: loading succeeds, construction fails. -/
def envCreateFail : Env where
  loadResult := .ok 7
  createResult := fun _ => .error (.validationError "bad schema")
  executeExc := fun _ => none
  statusOf := fun _ => .success

/-- Concrete oracle: everything succeeds and the status is Success. -/
def envSuccess : Env where
  loadResult := .ok 7
  createResult := fun c => .ok (c + 1)
  executeExc := fun _ => none
  statusOf := fun _ => .success

/-- Concrete oracle: the workflow runs but records a Failure status. -/
def envRuntimeFail : Env where
  loadResult := .ok 7
  createResult := fun c => .ok (c + 1)
  executeExc := fun _ => none
  statusOf := fun _ => .failure

/-- Concrete oracle: `execute()` itself raises an unexpected error. -/
def envExecRaises : Env where
  loadResult := .ok 7
  createResult := fun c => .ok (c + 1)
  executeExc := fun _ => some (.unexpectedError "boom")
  statusOf := fun _ => .success

/-- C1: any exception raised before a workflow instance exists (by
`load_config_file` or `UsageWorkflow.create`) is routed through the
initialization-error reporter and ends in `sys.exit(1)`; once
`UsageWorkflow.create` has returned an instance the reporter is never
called, so the two diagnostic paths are never conflated. -/
theorem run_usage_phase_separation (env : Env) :
    (initPhaseFails env = true →
      (run_usage env).2 = .exited 1 ∧
      (run_usage env).1.countP isInitReportEvent = 1) ∧
    (initPhaseFails env = false →
      (run_usage env).1.countP isInitReportEvent = 0) := by
  rcases hl : env.loadResult with exc | c
  · simp [run_usage, initPhaseFails, hl, isInitReportEvent]
  · rcases hc : env.createResult c with exc | w
    · simp [run_usage, initPhaseFails, hl, hc, isInitReportEvent]
    · rcases he : env.executeExc w with _ | exc
      · rcases hs : raise_from_status (env.statusOf w) with exc | u <;>
          simp [run_usage, initPhaseFails, hl, hc, he, hs, isInitReportEvent]
      · simp [run_usage, initPhaseFails, hl, hc, he, isInitReportEvent]

/-- C1 witness: on a concrete failing loader the reporter runs once and the
process exits with code 1. -/
theorem run_usage_phase_separation_witness :
    initPhaseFails envLoadFail = true ∧
    ((run_usage envLoadFail).2 = .exited 1 ∧
     (run_usage envLoadFail).1.countP isInitReportEvent = 1) :=
  ⟨by decide, (run_usage_phase_separation envLoadFail).1 (by decide)⟩

/-- C2: initialization-phase exceptions are caught locally and converted
into a diagnostic report plus a controlled `sys.exit(1)` — they never
propagate out of `run_usage` — while a failure from `raise_from_status`
propagates uncaught to the caller. -/
theorem init_caught_runtime_propagates (env : Env) :
    (initPhaseFails env = true →
      (run_usage env).2 = .exited 1 ∧
      (run_usage env).1.countP isInitReportEvent = 1 ∧
      ∀ exc, (run_usage env).2 ≠ .raised exc) ∧
    (∀ c w, env.loadResult = .ok c → env.createResult c = .ok w →
      env.executeExc w = none → env.statusOf w = .failure →
      (run_usage env).2 =
        .raised (.workflowFailed "workflow execution failed")) := by
  constructor
  · intro h
    rcases hl : env.loadResult with exc | c
    · simp [run_usage, hl, isInitReportEvent]
    · rcases hc : env.createResult c with exc | w
      · simp [run_usage, hl, hc, isInitReportEvent]
      · simp [initPhaseFails, hl, hc] at h
  · intro c w h1 h2 h3 h4
    simp [run_usage, h1, h2, h3, h4, raise_from_status]

/-- C2 witness: a concrete loader failure exits 1 with exactly one
diagnostic-report call, and a concrete workflow with Failure status makes
`run_usage` end by raising `WorkflowFailed`. -/
theorem init_caught_runtime_propagates_witness :
    (run_usage envLoadFail).2 = .exited 1 ∧
    (run_usage envLoadFail).1.countP isInitReportEvent = 1 ∧
    (run_usage envRuntimeFail).2 =
      .raised (.workflowFailed "workflow execution failed") :=
  ⟨((init_caught_runtime_propagates envLoadFail).1 (by decide)).1,
   ((init_caught_runtime_propagates envLoadFail).1 (by decide)).2.1,
   (init_caught_runtime_propagates envRuntimeFail).2 7 8 rfl rfl rfl rfl⟩

/-- C3: when `load_config_file` fails, `UsageWorkflow.create` is never
called (no workflow instance is constructed) and the process exits with
the initialization-failure exit code 1. -/
theorem load_failure_no_create (env : Env) (exc : Exc)
    (h : env.loadResult = .error exc) :
    (∀ c, Event.create c ∉ (run_usage env).1) ∧
    (run_usage env).2 = .exited 1 ∧
    processExitCode (run_usage env).2 = 1 := by
  simp [run_usage, h, processExitCode]

/-- C3 witness: the concrete failing loader never reaches `create`. -/
theorem load_failure_no_create_witness :
    (∀ c, Event.create c ∉ (run_usage envLoadFail).1) ∧
    (run_usage envLoadFail).2 = .exited 1 ∧
    processExitCode (run_usage envLoadFail).2 = 1 :=
  load_failure_no_create envLoadFail (.configError "unparseable") rfl

/-- C4: when the document loads but `UsageWorkflow.create` rejects it, the
error is reported tagged with `PipelineType.usage`, the process exits
nonzero, and `execute()` is never called. -/
theorem create_failure_reported_no_execute (env : Env) (c : ConfigDict)
    (exc : Exc) (h1 : env.loadResult = .ok c)
    (h2 : env.createResult c = .error exc) :
    Event.printInitError exc (some c) .usage ∈ (run_usage env).1 ∧
    (run_usage env).2 = .exited 1 ∧
    processExitCode (run_usage env).2 ≠ 0 ∧
    (∀ w, Event.execute w ∉ (run_usage env).1) := by
  simp [run_usage, h1, h2, processExitCode]

/-- C4 witness: a concrete schema-validation failure is reported with the
usage pipeline kind and never reaches `execute`. -/
theorem create_failure_reported_no_execute_witness :
    Event.printInitError (.validationError "bad schema") (some 7) .usage ∈
      (run_usage envCreateFail).1 ∧
    (run_usage envCreateFail).2 = .exited 1 ∧
    processExitCode (run_usage envCreateFail).2 ≠ 0 ∧
    (∀ w, Event.execute w ∉ (run_usage envCreateFail).1) :=
  create_failure_reported_no_execute envCreateFail 7
    (.validationError "bad schema") rfl rfl

/-- C5: for a constructed instance whose `execute()` returns with Status =
Success, `stop()` is called exactly once, then `print_status()`, then
`raise_from_status()` (which does not raise), and the process exits 0. -/
theorem success_path_order (env : Env) (c : ConfigDict) (w : Workflow)
    (h1 : env.loadResult = .ok c) (h2 : env.createResult c = .ok w)
    (h3 : env.executeExc w = none) (h4 : env.statusOf w = .success) :
    (run_usage env).1 = [.loadConfig, .create c, .debugUsingConfig,
      .execute w, .stop w, .printStatus w, .raiseFromStatus w] ∧
    (run_usage env).1.count (.stop w) = 1 ∧
    raise_from_status (env.statusOf w) = .ok () ∧
    (run_usage env).2 = .returned ∧
    processExitCode (run_usage env).2 = 0 := by
  simp [run_usage, h1, h2, h3, h4, raise_from_status, processExitCode,
    List.count_cons]

/-- C5 witness: the concrete all-success oracle takes the full lifecycle
path and exits 0. -/
theorem success_path_order_witness :
    (run_usage envSuccess).1 = [.loadConfig, .create 7, .debugUsingConfig,
      .execute 8, .stop 8, .printStatus 8, .raiseFromStatus 8] ∧
    (run_usage envSuccess).1.count (.stop 8) = 1 ∧
    raise_from_status (envSuccess.statusOf 8) = .ok () ∧
    (run_usage envSuccess).2 = .returned ∧
    processExitCode (run_usage envSuccess).2 = 0 :=
  success_path_order envSuccess 7 8 rfl rfl rfl rfl

/-- C6: for a constructed instance whose `execute()` returns with Status =
Failure, `stop()` is still called before `raise_from_status` raises
`WorkflowFailed`, and the process exits nonzero. -/
theorem failure_path_stop_before_raise (env : Env) (c : ConfigDict)
    (w : Workflow) (h1 : env.loadResult = .ok c)
    (h2 : env.createResult c = .ok w) (h3 : env.executeExc w = none)
    (h4 : env.statusOf w = .failure) :
    (run_usage env).1 = [.loadConfig, .create c, .debugUsingConfig,
      .execute w, .stop w, .printStatus w, .raiseFromStatus w] ∧
    (∃ i j, i < j ∧ (run_usage env).1.get? i = some (.stop w) ∧
      (run_usage env).1.get? j = some (.raiseFromStatus w)) ∧
    (run_usage env).2 =
      .raised (.workflowFailed "workflow execution failed") ∧
    processExitCode (run_usage env).2 ≠ 0 := by
  refine ⟨?_, ⟨4, 6, by norm_num, ?_, ?_⟩, ?_, ?_⟩ <;>
    simp [run_usage, h1, h2, h3, h4, raise_from_status, processExitCode]

/-- C6 witness: the concrete Failure-status oracle still stops the workflow
before `raise_from_status` raises, and exits nonzero. -/
theorem failure_path_stop_before_raise_witness :
    (run_usage envRuntimeFail).1 = [.loadConfig, .create 7,
      .debugUsingConfig, .execute 8, .stop 8, .printStatus 8,
      .raiseFromStatus 8] ∧
    (∃ i j, i < j ∧ (run_usage envRuntimeFail).1.get? i = some (.stop 8) ∧
      (run_usage envRuntimeFail).1.get? j = some (.raiseFromStatus 8)) ∧
    (run_usage envRuntimeFail).2 =
      .raised (.workflowFailed "workflow execution failed") ∧
    processExitCode (run_usage envRuntimeFail).2 ≠ 0 :=
  failure_path_stop_before_raise envRuntimeFail 7 8 rfl rfl rfl rfl

/-- C7: every initialization failure calls the reporter exactly once, with
the raised exception, the partial config (`none` when loading itself
failed, exactly the loaded document when construction failed) and
`PipelineType.usage`; a null config is a valid reporter argument. -/
theorem init_reporter_arguments (env : Env) :
    (∀ exc, env.loadResult = .error exc →
      ((run_usage env).1.filter isInitReportEvent) =
        [.printInitError exc none .usage]) ∧
    (∀ c exc, env.loadResult = .ok c → env.createResult c = .error exc →
      ((run_usage env).1.filter isInitReportEvent) =
        [.printInitError exc (some c) .usage]) := by
  constructor
  · intro exc h
    simp [run_usage, h, isInitReportEvent]
  · intro c exc h1 h2
    simp [run_usage, h1, h2, isInitReportEvent]

/-- C7 witness: on the concrete construction failure the reporter receives
the loaded document; on the concrete load failure it receives `none`. -/
theorem init_reporter_arguments_witness :
    ((run_usage envLoadFail).1.filter isInitReportEvent) =
      [.printInitError (.configError "unparseable") none .usage] ∧
    ((run_usage envCreateFail).1.filter isInitReportEvent) =
      [.printInitError (.validationError "bad schema") (some 7) .usage] :=
  ⟨(init_reporter_arguments envLoadFail).1 (.configError "unparseable") rfl,
   (init_reporter_arguments envCreateFail).2 7
     (.validationError "bad schema") rfl rfl⟩

/-- C8 counterexample: a failed invocation of `run_usage` in the runtime
phase (execution succeeded, Status = Failure) logs no stack trace at debug
verbosity: the `WorkflowFailed` propagates and `debugTraceback` is absent
from the call trace, contradicting the claim that every failed invocation
captures a stack trace. -/
theorem runtime_failure_logs_no_traceback :
    (run_usage envRuntimeFail).2 =
      .raised (.workflowFailed "workflow execution failed") ∧
    Event.debugTraceback ∉ (run_usage envRuntimeFail).1 := by
  refine ⟨rfl, ?_⟩
  decide

/-- C8 (amended): every initialization-phase failure captures a full stack
trace at debug verbosity, while runtime-phase failures propagate without
`run_usage` logging a traceback. -/
theorem traceback_only_on_init_failure (env : Env) :
    (initPhaseFails env = true →
      Event.debugTraceback ∈ (run_usage env).1) ∧
    (initPhaseFails env = false →
      Event.debugTraceback ∉ (run_usage env).1) := by
  rcases hl : env.loadResult with exc | c
  · simp [run_usage, initPhaseFails, hl]
  · rcases hc : env.createResult c with exc | w
    · simp [run_usage, initPhaseFails, hl, hc]
    · rcases he : env.executeExc w with _ | exc
      · rcases hs : raise_from_status (env.statusOf w) with exc | u <;>
          simp [run_usage, initPhaseFails, hl, hc, he, hs]
      · simp [run_usage, initPhaseFails, hl, hc, he]

/-- C8 (amended) witness: the concrete load failure logs a traceback. -/
theorem traceback_only_on_init_failure_witness :
    Event.debugTraceback ∈ (run_usage envLoadFail).1 :=
  (traceback_only_on_init_failure envLoadFail).1 (by decide)

/-- Any prefix of the duplicate-free canonical step list holds each step at
most once. -/
theorem count_le_one_of_prefix_canonical (l : List Step)
    (h : l <+: canonicalSteps) (s : Step) : l.count s ≤ 1 := by
  have hn : canonicalSteps.Nodup := by decide
  exact List.nodup_iff_count_le_one.mp (List.Nodup.sublist h.sublist hn) s

/-- C9: for every oracle, the lifecycle steps `run_usage` performs form a
prefix of the canonical order load, create, execute, stop, print_status,
raise_from_status — so each step runs at most once, strictly in that
order — the performed steps are cut exactly at the first failing step (a
load failure stops after load, a create failure after create, a raising
`execute()` after execute), and the initialization-error reporter is
called exactly once on an initialization failure and never otherwise. -/
theorem lifecycle_steps_linear (env : Env) :
    ((run_usage env).1.filterMap stepOf) <+: canonicalSteps ∧
    (∀ s : Step, ((run_usage env).1.filterMap stepOf).count s ≤ 1) ∧
    ((∃ e, env.loadResult = .error e) →
      (run_usage env).1.filterMap stepOf = [.loadStep]) ∧
    (∀ c e, env.loadResult = .ok c → env.createResult c = .error e →
      (run_usage env).1.filterMap stepOf = [.loadStep, .createStep]) ∧
    (∀ c w e, env.loadResult = .ok c → env.createResult c = .ok w →
      env.executeExc w = some e →
      (run_usage env).1.filterMap stepOf =
        [.loadStep, .createStep, .executeStep]) ∧
    (run_usage env).1.countP isInitReportEvent =
      (if initPhaseFails env then 1 else 0) := by
  have hpre : ((run_usage env).1.filterMap stepOf) <+: canonicalSteps := by
    rcases hl : env.loadResult with exc | c
    · exact ⟨canonicalSteps.drop 1,
        by simp [run_usage, hl, stepOf, canonicalSteps]⟩
    · rcases hc : env.createResult c with exc | w
      · exact ⟨canonicalSteps.drop 2,
          by simp [run_usage, hl, hc, stepOf, canonicalSteps]⟩
      · rcases he : env.executeExc w with _ | exc
        · rcases hs : raise_from_status (env.statusOf w) with exc | u
          · exact ⟨[],
              by simp [run_usage, hl, hc, he, hs, stepOf, canonicalSteps]⟩
          · exact ⟨[],
              by simp [run_usage, hl, hc, he, hs, stepOf, canonicalSteps]⟩
        · exact ⟨canonicalSteps.drop 3,
            by simp [run_usage, hl, hc, he, stepOf, canonicalSteps]⟩
  refine ⟨hpre, fun s => count_le_one_of_prefix_canonical _ hpre s,
    ?_, ?_, ?_, ?_⟩
  · rintro ⟨e, he⟩
    simp [run_usage, he, stepOf]
  · intro c e h1 h2
    simp [run_usage, h1, h2, stepOf]
  · intro c w e h1 h2 h3
    simp [run_usage, h1, h2, h3, stepOf]
  · rcases hl : env.loadResult with exc | c
    · simp [run_usage, hl, initPhaseFails, isInitReportEvent]
    · rcases hc : env.createResult c with exc | w
      · simp [run_usage, hl, hc, initPhaseFails, isInitReportEvent]
      · rcases he : env.executeExc w with _ | exc
        · rcases hs : raise_from_status (env.statusOf w) with exc | u <;>
            simp [run_usage, hl, hc, he, hs, initPhaseFails,
              isInitReportEvent]
        · simp [run_usage, hl, hc, he, initPhaseFails, isInitReportEvent]

/-- C9 witness: on the concrete oracle whose `execute()` raises, the
lifecycle trace is a once-each canonical prefix cut exactly after the
execute step, with no reporter call. -/
theorem lifecycle_steps_linear_witness :
    ((run_usage envExecRaises).1.filterMap stepOf) <+: canonicalSteps ∧
    (∀ s : Step,
      ((run_usage envExecRaises).1.filterMap stepOf).count s ≤ 1) ∧
    (run_usage envExecRaises).1.filterMap stepOf =
      [.loadStep, .createStep, .executeStep] ∧
    (run_usage envExecRaises).1.countP isInitReportEvent =
      (if initPhaseFails envExecRaises then 1 else 0) :=
  ⟨(lifecycle_steps_linear envExecRaises).1,
   (lifecycle_steps_linear envExecRaises).2.1,
   (lifecycle_steps_linear envExecRaises).2.2.2.2.1 7 8
     (.unexpectedError "boom") rfl rfl rfl,
   (lifecycle_steps_linear envExecRaises).2.2.2.2.2⟩

/-- C10: when `execute()` itself raises, `run_usage` calls none of `stop`,
`print_status` or `raise_from_status`, never invokes the
initialization-error reporter, and the exception propagates uncaught out
of `run_usage` to the caller. -/
theorem execute_raises_no_cleanup (env : Env) (c : ConfigDict)
    (w : Workflow) (exc : Exc) (h1 : env.loadResult = .ok c)
    (h2 : env.createResult c = .ok w) (h3 : env.executeExc w = some exc) :
    (∀ v, Event.stop v ∉ (run_usage env).1) ∧
    (∀ v, Event.printStatus v ∉ (run_usage env).1) ∧
    (∀ v, Event.raiseFromStatus v ∉ (run_usage env).1) ∧
    (run_usage env).1.countP isInitReportEvent = 0 ∧
    (run_usage env).2 = .raised exc := by
  simp [run_usage, h1, h2, h3, isInitReportEvent]

/-- C10 witness: the concrete raising `execute()` propagates its exception
with no cleanup calls and no reporter call. -/
theorem execute_raises_no_cleanup_witness :
    (∀ v, Event.stop v ∉ (run_usage envExecRaises).1) ∧
    (∀ v, Event.printStatus v ∉ (run_usage envExecRaises).1) ∧
    (∀ v, Event.raiseFromStatus v ∉ (run_usage envExecRaises).1) ∧
    (run_usage envExecRaises).1.countP isInitReportEvent = 0 ∧
    (run_usage envExecRaises).2 = .raised (.unexpectedError "boom") :=
  execute_raises_no_cleanup envExecRaises 7 8 (.unexpectedError "boom")
    rfl rfl rfl

end UsageCli
